import Mathlib

/-!
Shallow embedding of the retrieval-and-generation orchestration layer of the
doc-rag-feature repository (src/app/api/qa.py and its prompt / store helpers),
together with proofs settling the frozen claims about it.

Modelling conventions:
* Python `str` is modelled by `String`; Python slicing / indexing is by code
  point, matching Lean `Char` lists, so string operations are implemented over
  `String.toList`.
* The external collaborators (vector index search, generation backend, history
  store, `json.loads`) are modelled as explicit parameters.  Per the spec the
  generation backend always returns text (transport failures are converted to
  inline error strings inside `GroqChatService.chat_get_text`), and the vector
  index returns an ordered document list, so those oracles are total functions.
  The secondary suggestion step of `query_docs` is modelled as a fallible
  oracle (`Except`), because the surrounding code wraps it in `try/except`.
* Loops with non-structural termination (the round-robin selection loops) are
  modelled with an explicit fuel argument; the callers pass fuel that bounds
  the number of loop iterations (total queue size + 1), which is exactly the
  bound the Python `while` loops obey.
-/

namespace DocRag

/-! ## Configuration (src/app/config.py) -/

/-- `settings.TOP_K` from src/app/config.py. -/
def TOP_K : Nat := 15

/-! ## Data model -/

/-- A retrieved passage (LangChain `Document`): `page_content` plus the
`source` metadata entry (`doc.metadata.get('source', ...)` may be absent). -/
structure Doc where
  page_content : String
  source : Option String
deriving DecidableEq, Repr

/-- A chat-completion message, `{"role": ..., "content": ...}`. -/
structure Message where
  role : String
  content : String
deriving DecidableEq, Repr

/-- A row of the `chat_messages` table as written by `save_chat_message`
(src/app/db/supabase_client.py): the `role` and `message` columns.  The
`extra` metadata column is never read back by the code under verification and
is omitted. -/
structure StoredMsg where
  role : String
  message : String
deriving DecidableEq, Repr

/-- A normalized history entry as built in `query_docs` (qa.py lines
203-209): `{'role': ..., 'content': ...}`. -/
structure HistMsg where
  role : String
  content : String
deriving DecidableEq, Repr

/-- `QueryRequest` from src/app/schemas.py. -/
structure QueryRequest where
  session_id : String
  query : String
  files : Option (List String)
deriving DecidableEq, Repr

/-- `QueryResponse` from src/app/schemas.py. -/
structure QueryResponse where
  session_id : String
  query : String
  answer : String
  source_docs : List String
  suggestions : List String
deriving DecidableEq, Repr

/-- `MCQRequest` from src/app/schemas.py (`num_questions: int = 5`). -/
structure MCQRequest where
  session_id : String
  num_questions : Nat
  files : Option (List String)
deriving DecidableEq, Repr

/-- `MCQItem` from src/app/schemas.py; the `choices` dict is modelled as an
association list. -/
structure MCQItem where
  question : String
  choices : List (String × String)
  correct_answer : String
deriving DecidableEq, Repr

/-- `MCQListResponse` from src/app/schemas.py. -/
structure MCQListResponse where
  session_id : String
  query : String
  mcqs : List MCQItem
deriving DecidableEq, Repr

/-! ## Filter Builder (qa.py, `get_retriever_for_session`, lines 23-49) -/

/-- A qdrant `FieldCondition(key=..., match=MatchValue(value=...))`. -/
structure FieldCondition where
  key : String
  value : String
deriving DecidableEq, Repr

/-- A qdrant `Filter(must=..., should=...)`; the code builds either a pure
`must` filter or a pure `should` filter. -/
structure QFilter where
  must : List FieldCondition
  should : List FieldCondition
deriving DecidableEq, Repr

/-- The filter-building logic of `get_retriever_for_session` (qa.py lines
29-47).  `none` / `some []` are both falsy for Python `if files:`. -/
def buildFilter : Option (List String) → Option QFilter
  | none => none
  | some files =>
    if files.isEmpty then none
    else
      let conditions := files.map (fun f => FieldCondition.mk "metadata.source" f)
      if files.length = 1 then some (QFilter.mk conditions [])
      else some (QFilter.mk [] conditions)

/-- Modelled from the spec: the vector-index collaborator's evaluation of a
scope predicate against a passage's source attribute (spec section 6; the
index itself is out of scope).  `must` conditions must all hold; a non-empty
`should` list requires at least one to hold; no filter matches everything. -/
def scopeAllows : Option QFilter → String → Bool
  | none, _ => true
  | some f, src =>
    f.must.all (fun c => c.value = src) &&
      (f.should.isEmpty || f.should.any (fun c => c.value = src))

/-! ## History store (src/app/db/supabase_client.py) -/

/-- `get_session_messages`: the store holds messages in chronological
(append) order; the query orders by `created_at` **descending** and applies
`limit`, i.e. it returns the newest `limit` messages, newest first. -/
def get_session_messages (store : List StoredMsg) (limit : Nat) : List StoredMsg :=
  store.reverse.take limit

/-- `save_chat_message`: appends a row to the `chat_messages` table. -/
def save_chat_message (store : List StoredMsg) (role message : String) : List StoredMsg :=
  store ++ [StoredMsg.mk role message]

/-! ## String utilities (Python semantics, over code points) -/

/-- Python `str.strip()` with no argument (leading/trailing whitespace). -/
def pyStrip (s : String) : String :=
  String.mk (((s.toList.dropWhile Char.isWhitespace).reverse.dropWhile
    Char.isWhitespace).reverse)

/-- Python `s[:n]` for `n ≥ 0` (code-point slicing). -/
def takeChars (n : Nat) (s : String) : String :=
  String.mk (s.toList.take n)

/-- Python `len(s)` (code points). -/
def strLen (s : String) : Nat := s.toList.length

/-- Does `pre` occur at the front of `cs`? -/
def listStartsWith : List Char → List Char → Bool
  | [], _ => true
  | _ :: _, [] => false
  | p :: ps, c :: rest => p = c && listStartsWith ps rest

/-- Python `s.startswith(pre)`. -/
def strStartsWith (s pre : String) : Bool :=
  listStartsWith pre.toList s.toList

/-- Python `s.endswith(suf)`. -/
def strEndsWith (s suf : String) : Bool :=
  listStartsWith suf.toList.reverse s.toList.reverse

/-- Drop the last `n` code points of `s`. -/
def dropRightChars (n : Nat) (s : String) : String :=
  String.mk (s.toList.take (s.toList.length - n))

/-- Split a character list on newline characters (keeps empty pieces). -/
def splitNlChars : List Char → List (List Char)
  | [] => [[]]
  | c :: rest =>
    if c = '\n' then [] :: splitNlChars rest
    else
      match splitNlChars rest with
      | h :: t => (c :: h) :: t
      | [] => [[c]]

/-- Python `s.split('\n')` (keeps empty pieces). -/
def splitNl (s : String) : List String :=
  (splitNlChars s.toList).map String.mk

/-- Interleave `sep` between the pieces. -/
def intercalChars (sep : List Char) : List (List Char) → List Char
  | [] => []
  | [x] => x
  | x :: y :: rest => x ++ sep ++ intercalChars sep (y :: rest)

/-- Python `sep.join(parts)`. -/
def joinWith (sep : String) (parts : List String) : String :=
  String.mk (intercalChars sep.toList (parts.map String.toList))

/-! ## Prompt builders (src/app/services/groq_llm.py) -/

/-- `build_strict_context_prompt` (groq_llm.py lines 53-75). -/
def build_strict_context_prompt (query : String) (context_docs : List String) :
    List Message :=
  let system_message :=
    "You are a helpful assistant. Answer the user\x27s question ONLY using the information " ++
    "present in the provided CONTEXT. Do NOT use any knowledge outside this context. " ++
    "If the exact answer is not present, respond honestly: \x27I don\x27t know from the provided documents.\x27 " ++
    "Otherwise, use all relevant information in the context to provide the best possible answer " ++
    "without guessing or hallucinating.\n\n" ++
    "CONTEXT:\n"
  let context := joinWith "\n---DOCUMENT---\n" context_docs
  let user_message := "QUESTION: " ++ query
  [Message.mk "system" (system_message ++ context), Message.mk "user" user_message]

/-- The conversation-pair extraction loop of `build_suggestion_prompt`
(groq_llm.py lines 135-154): walk the history, pairing a `user` message with
an immediately following `assistant` message (advance by 2); otherwise skip
one message.  The normalized history dicts carry only `role`/`content`, so
`msg.get('message') or msg.get('content', '')` resolves to `content`. -/
def conversationPairs : List HistMsg → List (String × String)
  | m1 :: m2 :: rest =>
    if m1.role = "user" ∧ m2.role = "assistant" then
      (m1.content, m2.content) :: conversationPairs rest
    else
      conversationPairs (m2 :: rest)
  | _ => []

/-- `pair['assistant'][:500] + ("..." if len(pair['assistant']) > 500 else "")`
(groq_llm.py line 159). -/
def truncateAssistant (s : String) : String :=
  if 500 < strLen s then takeChars 500 s ++ "..." else s

/-- Rendering of the turns block of the follow-up prompt (groq_llm.py lines
157-163). -/
def renderTurns (pairs : List (String × String)) : String :=
  String.join ((List.zip (List.range pairs.length) pairs).map (fun ip =>
    "\n--- Turn " ++ toString (ip.fst + 1) ++ " ---\n" ++
    "User: " ++ ip.snd.fst ++ "\n" ++
    "Assistant: " ++ truncateAssistant ip.snd.snd ++ "\n"))

/-- System message of the initial-mode suggestion prompt (groq_llm.py lines
104-112). -/
def suggestionSystemInitial : String :=
  "You are an intelligent recommended questions generator. Your task is to provide 3 concise, " ++
  "relevant, and thought-provoking questions. " ++
  "These questions MUST be based **EXCLUSIVELY** on the provided CONTEXT. " ++
  "IMPORTANT: You MUST ensure the 3 questions cover the most important and **distinct topics** present across **ALL documents** mentioned in the CONTEXT. " ++
  "Each question must be a single, short sentence. " ++
  "Format: Return ONLY a numbered list (1. 2. 3.) with one question per line. " ++
  "Do NOT include any introductory text, explanations, or concluding remarks."

/-- System message of the follow-up-mode suggestion prompt (groq_llm.py lines
114-127). -/
def suggestionSystemFollowUp : String :=
  "You are an intelligent follow-up questions generator. " ++
  "Your task is to provide 3 NEW questions that explore DIFFERENT topics or aspects from the documents. " ++
  "These questions MUST be based on the provided CONTEXT. " ++
  "\n**CRITICAL INSTRUCTIONS:**\n" ++
  "1. Review the FULL CONVERSATION HISTORY (all user queries and assistant answers)\n" ++
  "2. Identify what topics and information have ALREADY been covered\n" ++
  "3. Generate questions about COMPLETELY DIFFERENT topics or unexplored aspects\n" ++
  "4. DO NOT ask about information already provided in previous answers\n" ++
  "5. Help the user discover NEW information from the documents\n" ++
  "6. Each question must be a single, short sentence\n" ++
  "\nFormat: Return ONLY a numbered list (1. 2. 3.) with one question per line. " ++
  "Do NOT include any introductory text, explanations, or concluding remarks."

/-- Task footer appended after the turns block (groq_llm.py lines 165-169). -/
def suggestionTaskFooter : String :=
  "\n**YOUR TASK:** Based on the conversation history above, generate 3 NEW questions about " ++
  "topics and information NOT YET covered. Explore different aspects of the documents that " ++
  "haven\x27t been discussed yet."

/-- `build_suggestion_prompt` (groq_llm.py lines 92-176).  `is_initial` is
`not history or len(history) < 2`. -/
def build_suggestion_prompt (context : String) (history : List HistMsg) :
    List Message :=
  let is_initial := history.length < 2
  let system_message :=
    if is_initial then suggestionSystemInitial else suggestionSystemFollowUp
  let user_content := "CONTEXT:\n" ++ context
  let user_content :=
    if is_initial then user_content
    else
      user_content ++ "\n\n**FULL CONVERSATION HISTORY:**\n" ++
        renderTurns (conversationPairs history) ++ suggestionTaskFooter
  [Message.mk "system" system_message, Message.mk "user" user_content]

/-- `build_mcq_generation_prompt` (groq_llm.py lines 177-203). -/
def build_mcq_generation_prompt (context_docs : List String) (num_questions : Nat) :
    List Message :=
  let context := joinWith "\n---\n" context_docs
  let system_message :=
    "You are an expert quiz generator. Your **SOLE** task is to create multiple-choice questions (MCQs) " ++
    "BASED **STRICTLY AND EXCLUSIVELY** ON THE PROVIDED CONTEXT. " ++
    "**EVERY** question, **EVERY** option (A, B, C, D), and the **CORRECT ANSWER** " ++
    "**MUST** be verifiable and directly supported by the text in the CONTEXT. " ++
    "Do NOT use external knowledge or invent information. " ++
    "If the context does not contain enough information, create fewer questions or state you cannot complete the request.\n\n" ++
    "Generate " ++ toString num_questions ++ " MCQs. The response **MUST** be a single, valid JSON array containing objects for each question. " ++
    "Each question object must strictly include the following keys: \x27question\x27, \x27choices\x27 (an object with keys A, B, C, D), and \x27correct_answer\x27 (the letter A, B, C, or D). " ++
    "Do not include any text before or after the JSON array."
  let user_message := "CONTEXT:\n" ++ context
  [Message.mk "system" system_message, Message.mk "user" user_message]

/-! ## Suggestion output parsing (qa.py, lines 121-130) -/

/-- Membership in the `lstrip` charset `'0123456789.-•) \t'`. -/
def isEnumMarker (c : Char) : Bool :=
  ("0123456789.-•) \t".toList).contains c

/-- `line.lstrip('0123456789.-•) \t')`. -/
def cleanLine (s : String) : String :=
  String.mk (s.toList.dropWhile isEnumMarker)

/-- The suggestion-collecting loop of `generate_suggestions_from_retriever`
(qa.py lines 121-128): strip each line, skip empty lines, strip leading
enumeration markers, skip lines that become empty. -/
def collectSuggestions : List String → List String
  | [] => []
  | line :: rest =>
    let l := pyStrip line
    if l = "" then collectSuggestions rest
    else
      let cleaned := cleanLine l
      if cleaned = "" then collectSuggestions rest
      else cleaned :: collectSuggestions rest

/-- Lines 121-130 of qa.py: collect cleaned lines from `resp.splitlines()`,
then return `suggestions[:3]`.  (`splitlines` is modelled as splitting on
newline characters.) -/
def extractSuggestions (resp : String) : List String :=
  (collectSuggestions (splitNl resp)).take 3

/-! ## Grouping passages by source -/

/-- Append `v` to the group of key `k`, preserving first-seen key order —
the behaviour of `defaultdict(list)` appends on a Python dict (insertion
ordered). -/
def insertGrouped (g : List (String × List String)) (k : String) (v : String) :
    List (String × List String) :=
  match g with
  | [] => [(k, [v])]
  | (k0, vs) :: rest =>
    if k0 = k then (k0, vs ++ [v]) :: rest
    else (k0, vs) :: insertGrouped rest k v

/-- Group docs by `d.metadata.get('source', defaultSrc)`, mapping each doc to
`f d` (qa.py lines 77-80 with `f = page_content`; lines 272-277 with
`f = page_content[:600]`). -/
def groupDocs (defaultSrc : String) (f : Doc → String) (docs : List Doc) :
    List (String × List String) :=
  docs.foldl (fun g d => insertGrouped g (d.source.getD defaultSrc) (f d)) []

/-! ## Context Balancer (qa.py, lines 82-102)

The Python loop iterates `cycle(docs_by_source.keys())`; the dict is never
structurally modified during balancing (only its list values are popped), so
the cycle is a fixed, stable list of sources in first-seen order, and each
pass of the inner `for _ in range(len(docs_by_source))` visits each source
exactly once. -/

/-- `max_chunks_per_file` (qa.py line 82). -/
def maxChunksPerFile : Nat := 10

/-- `max_total_chunks` (qa.py line 83). -/
def maxTotalChunks : Nat := 30

/-- One pass of the inner `for` loop (qa.py lines 94-100): pop the front of
each non-empty queue in order, appending to `acc`; after an append that
reaches the global cap, `break` (remaining queues untouched).  Returns the
updated queues, the extended output, and the `added` flag. -/
def sweep (cap : Nat) :
    List (String × List String) → List String →
    List (String × List String) × List String × Bool
  | [], acc => ([], acc, false)
  | (s, q) :: rest, acc =>
    match q with
    | [] =>
      let r := sweep cap rest acc
      ((s, []) :: r.1, r.2.1, r.2.2)
    | x :: q2 =>
      let acc2 := acc ++ [x]
      if cap ≤ acc2.length then ((s, q2) :: rest, acc2, true)
      else
        let r := sweep cap rest acc2
        ((s, q2) :: r.1, r.2.1, true)

/-- The outer `while added and len(balanced_contexts) < max_total_chunks`
loop (qa.py lines 90-100), with fuel.  Each continuing iteration pops at
least one passage, so fuel = total passage count + 1 always suffices. -/
def balanceLoop (cap : Nat) : Nat → List (String × List String) → List String → List String
  | 0, _, acc => acc
  | fuel + 1, qs, acc =>
    if cap ≤ acc.length then acc
    else
      let r := sweep cap qs acc
      if r.2.2 then balanceLoop cap fuel r.1 r.2.1 else r.2.1

/-- Total number of queued passages. -/
def totalQueued (qs : List (String × List String)) : Nat :=
  (qs.map (fun p => p.snd.length)).sum

/-- The Context Balancer (qa.py lines 82-102): truncate each source's queue
to `max_chunks_per_file`, then round-robin-select until the global cap is
reached or all queues are empty. -/
def balanceContexts (groups : List (String × List String)) : List String :=
  let truncated := groups.map (fun p => (p.fst, p.snd.take maxChunksPerFile))
  balanceLoop maxTotalChunks (totalQueued truncated + 1) truncated []

/-! ## Suggestion Generator (qa.py, `generate_suggestions_from_retriever`,
lines 52-130) -/

/-- Collaborator oracles used by the suggestion generator: scoped vector
search (filter, k, query ↦ ranked docs) and the generation backend, which
always returns text (`chat_get_text` converts transport failures to inline
error strings). -/
structure SuggestEnv where
  retrieve : Option QFilter → Nat → String → List Doc
  llm : List Message → String

/-- The broad probe used in initial mode (qa.py line 64) and as the fallback
follow-up query (line 68). -/
def broadProbe : String :=
  "find the main topics, key concepts, and important entities from all uploaded files"

/-- `generate_suggestions_from_retriever` (qa.py lines 52-130). -/
def generate_suggestions_from_retriever (env : SuggestEnv)
    (history : List HistMsg) (files : Option (List String)) : List String :=
  let is_initial := history.length < 2
  let retrieval_k := if is_initial then 20 else TOP_K
  let search_query :=
    if is_initial then broadProbe
    else
      let all_user_queries :=
        (history.filter (fun m => m.role = "user")).map (fun m => m.content)
      let recent_queries := all_user_queries.reverse.take 3 |>.reverse
      if recent_queries.isEmpty then broadProbe else joinWith " " recent_queries
  let top_docs := env.retrieve (buildFilter files) retrieval_k search_query
  if top_docs.isEmpty then []
  else
    let contexts :=
      if is_initial then
        balanceContexts (groupDocs "Unknown File" Doc.page_content top_docs)
      else top_docs.map Doc.page_content
    let context_text := joinWith "\n-----DOCUMENT-----\n" contexts
    let prompt := build_suggestion_prompt context_text history
    let resp := env.llm prompt
    extractSuggestions resp

/-! ## Answer Generator (qa.py, `query_docs`, lines 132-230) -/

/-- Collaborators of `query_docs`: vector search, generation backend, and the
history store state (chronological list of rows). -/
structure QueryEnv where
  retrieve : Option QFilter → Nat → String → List Doc
  llm : List Message → String
  store : List StoredMsg

/-- The secondary suggestion step as seen from `query_docs`: given the
normalized history and the file scope, it either produces suggestions or
raises (any exception), which the `try/except` in `query_docs` must catch.
Internally it calls the embedding service, the vector index and the
generation backend, so arbitrary failure is the honest model. -/
def SuggestOracle : Type :=
  List HistMsg → Option (List String) → Except Unit (List String)

/-- Observable side effects of one `query_docs` call: number of direct
generation-backend calls made for the answer itself, the resulting store
contents, and the history argument of each suggestion-step invocation. -/
structure QueryTrace where
  llmCalls : Nat
  store : List StoredMsg
  suggestArgs : List (List HistMsg)
deriving DecidableEq, Repr

/-- The fixed fallback answer literal (qa.py line 172). -/
def fallbackAnswer : String :=
  "I couldn\x27t find relevant information in the specified documents. Please try a different query or check if the files are uploaded correctly."

/-- The `try/except` guard around the suggestion step (qa.py lines 163-167
and 201-220): failures degrade to an empty list. -/
def bestEffort (r : Except Unit (List String)) : List String :=
  match r with
  | .ok s => s
  | .error _ => []

/-- First-occurrence deduplication, standing in for Python `list(set(...))`
(whose iteration order is unspecified; no claim depends on the order). -/
def dedupFirst (l : List String) : List String :=
  l.foldl (fun acc x => if acc.contains x then acc else acc ++ [x]) []

/-- Normalization of store rows in `query_docs` (qa.py lines 203-209): the
row dicts carry `role` and `message` (no `content`/`text` keys), so
`message.get('content') or message.get('text') or message.get('message') or ""`
resolves to the `message` column. -/
def normalizeHistory (rows : List StoredMsg) : List HistMsg :=
  rows.map (fun m => HistMsg.mk m.role m.message)

/-- `query_docs` (qa.py lines 132-230), in an exception monad mirroring
Python control flow.  The spec-modelled collaborators in `env` are total;
the only fallible step is the suggestion oracle, and both of its call sites
sit inside `try/except` blocks, modelled by `bestEffort`. -/
def query_docs (env : QueryEnv) (suggest : SuggestOracle) (body : QueryRequest) :
    Except Unit (QueryResponse × QueryTrace) :=
  let top_docs := env.retrieve (buildFilter body.files) TOP_K body.query
  let store1 := save_chat_message env.store "user" body.query
  if top_docs.isEmpty then
    let suggestions := bestEffort (suggest [] body.files)
    Except.ok (QueryResponse.mk body.session_id body.query fallbackAnswer [] suggestions,
          QueryTrace.mk 0 store1 [[]])
  else
    let contexts := top_docs.map Doc.page_content
    let filenames := top_docs.map (fun d => d.source.getD "Unknown File")
    let rag_prompt := build_strict_context_prompt body.query contexts
    let answer := env.llm rag_prompt
    let store2 := save_chat_message store1 "assistant" answer
    let history := get_session_messages store2 6
    let normalized := normalizeHistory history
    let suggestions := bestEffort (suggest normalized body.files)
    Except.ok (QueryResponse.mk body.session_id body.query answer
            (dedupFirst filenames) suggestions,
          QueryTrace.mk 1 store2 [normalized])

/-! ## JSON values (the result of `json.loads`) -/

/-- A parsed JSON value.  `json.loads` itself is Python stdlib and is
modelled as an oracle `String → Option Json` (`none` = `JSONDecodeError`). -/
inductive Json where
  | null : Json
  | bool : Bool → Json
  | num : Int → Json
  | str : String → Json
  | arr : List Json → Json
  | obj : List (String × Json) → Json

/-- Dict key lookup (first match). -/
def jlookup (k : String) : List (String × Json) → Option Json
  | [] => none
  | (k0, v) :: rest => if k0 = k then some v else jlookup k rest

/-- All values of a JSON object read as strings (the `Dict[str, str]`
validation of `MCQItem.choices`); fails on a non-string value. -/
def stringEntries : List (String × Json) → Option (List (String × String))
  | [] => some []
  | (k, v) :: rest =>
    match v, stringEntries rest with
    | Json.str s, some r => some ((k, s) :: r)
    | _, _ => none

/-! ## Quiz Generator (qa.py, `generate_mcq`, lines 239-370) -/

/-- Failure modes of `generate_mcq`, each raised as an `HTTPException`. -/
inductive QuizError where
  | noDocuments     -- 404, "No documents found for MCQ generation" (line 269)
  | parseFailure    -- 500, `json.JSONDecodeError` handler (line 366)
  | invalidResponse -- 500, generic `except Exception` handler (line 370)
deriving DecidableEq, Repr

/-- The HTTP status code attached to each failure. -/
def QuizError.status : QuizError → Nat
  | .noDocuments => 404
  | .parseFailure => 500
  | .invalidResponse => 500

/-- The markdown code-fence cleaning steps (qa.py lines 316-322): strip;
if the text starts with ``` drop the first line; if it then ends with ```
drop the final three characters (`rsplit('```', 1)[0]` with a ``` suffix);
strip again. -/
def stripCodeFence (resp : String) : String :=
  let r := pyStrip resp
  let r :=
    if strStartsWith r "```" then joinWith "\n" ((splitNl r).drop 1) else r
  let r := if strEndsWith r "```" then dropRightChars 3 r else r
  pyStrip r

/-- Python `s.find(c)`: index of the first occurrence, `none` for `-1`. -/
def findChar (c : Char) : List Char → Option Nat
  | [] => none
  | x :: rest => if x = c then some 0 else (findChar c rest).map (fun i => i + 1)

/-- The bracket-slicing step (qa.py lines 325-328): `json_start = resp.find('[')`,
`json_end = resp.rfind(']') + 1` (`rfind` = first occurrence in the reversed
text); slice when `json_start != -1` and `json_end > json_start`. -/
def sliceJsonArray (resp : String) : String :=
  let cs := resp.toList
  match findChar '[' cs with
  | none => resp
  | some s =>
    match findChar ']' cs.reverse with
    | none => resp
    | some j =>
      let e := cs.length - j
      if s < e then String.mk ((cs.drop s).take (e - s)) else resp

/-- The full response-repair pipeline applied before parsing. -/
def repairResponse (resp : String) : String :=
  sliceJsonArray (stripCodeFence resp)

/-- Construction of one `MCQItem` from a parsed item (qa.py lines 344-352).
A non-object item has no `.get` attribute, so the Python loop raises
(`AttributeError`, caught by the generic handler); present fields must pass
the pydantic field types `str` / `Dict[str, str]` / `str` (a non-string
`question` value already fails at the `item.get('question', 'N/A')[:50]`
slice on line 345); absent fields default to `""` / `{}` / `""`. -/
def buildMCQItem : Json → Option MCQItem
  | Json.obj kvs =>
    let q := (jlookup "question" kvs).getD (Json.str "")
    let c := (jlookup "choices" kvs).getD (Json.obj [])
    let a := (jlookup "correct_answer" kvs).getD (Json.str "")
    match q, c, a with
    | Json.str qs, Json.obj ckvs, Json.str ans =>
      match stringEntries ckvs with
      | some cs => some (MCQItem.mk qs cs ans)
      | none => none
    | _, _, _ => none
  | _ => none

/-- The validation loop over `mcqs_json[:count]` (qa.py lines 343-352):
items are converted in order and the first failure aborts the whole batch. -/
def traverseItems : List Json → Option (List MCQItem)
  | [] => some []
  | j :: rest =>
    match buildMCQItem j, traverseItems rest with
    | some m, some ms => some (m :: ms)
    | _, _ => none

/-- The parse-and-validate stage of `generate_mcq` (qa.py lines 332-370),
as a function of the parse result of the sliced text: a decode failure maps
to the 500 `JSONDecodeError` handler; a non-array value raises `ValueError`
and any item failure raises, both caught by the generic 500 handler. -/
def parseMcqsJson (count : Nat) (p : Option Json) : Except QuizError (List MCQItem) :=
  match p with
  | none => Except.error QuizError.parseFailure
  | some (Json.arr items) =>
    match traverseItems (items.take count) with
    | some ms => Except.ok ms
    | none => Except.error QuizError.invalidResponse
  | some _ => Except.error QuizError.invalidResponse

/-- One pass over the fixed cycle of sources for excerpt selection (qa.py
lines 284-291): before each pop the `while` guard re-checks the global
bound; empty queues are skipped (`del by_source[source]` together with the
`defaultdict` makes a deleted source behave exactly like an empty queue). -/
def selectPass (maxE : Nat) :
    List (String × List String) → List String →
    List (String × List String) × List String
  | [], acc => ([], acc)
  | (s, q) :: rest, acc =>
    if maxE ≤ acc.length then ((s, q) :: rest, acc)
    else
      match q with
      | [] =>
        let r := selectPass maxE rest acc
        ((s, []) :: r.1, r.2)
      | x :: q2 =>
        let r := selectPass maxE rest (acc ++ [x])
        ((s, q2) :: r.1, r.2)

/-- The `while len(selected_content) < max_excerpts and by_source` loop
(qa.py lines 284-291), with fuel; the loop stops when the bound is reached
or every source is exhausted (the dict becomes empty exactly when every
source has been seen empty). -/
def selectLoop (maxE : Nat) : Nat → List (String × List String) → List String → List String
  | 0, _, acc => acc
  | fuel + 1, qs, acc =>
    if maxE ≤ acc.length then acc
    else if qs.all (fun p => p.snd.isEmpty) then acc
    else
      let r := selectPass maxE qs acc
      selectLoop maxE fuel r.1 r.2

/-- Round-robin excerpt selection bounded by `max_excerpts`. -/
def selectExcerpts (maxE : Nat) (groups : List (String × List String)) : List String :=
  selectLoop maxE (totalQueued groups + 1) groups []

/-- Collaborators of `generate_mcq`: vector search, generation backend, and
`json.loads`. -/
structure MCQEnv where
  retrieve : Option QFilter → Nat → String → List Doc
  llm : List Message → String
  jsonParse : String → Option Json

/-- Observable side effects of one `generate_mcq` call: the prompt of each
generation-backend invocation. -/
structure MCQTrace where
  llmPrompts : List (List Message)
deriving DecidableEq, Repr

/-- The fixed broad retrieval probe (qa.py line 249). -/
def mcqProbe : String := "comprehensive overview topics concepts"

/-- `MAX_CONTEXT` (qa.py line 296). -/
def MAX_CONTEXT : Nat := 5000

/-- The documents retrieved for a quiz request (qa.py lines 248-249). -/
def mcqDocs (env : MCQEnv) (body : MCQRequest) : List Doc :=
  env.retrieve (buildFilter body.files) TOP_K mcqProbe

/-- Per-source 600-character excerpt queues (qa.py lines 272-277). -/
def mcqGroups (docs : List Doc) : List (String × List String) :=
  groupDocs "unknown" (fun d => takeChars 600 d.page_content) docs

/-- The combined excerpt context for `count` questions (qa.py lines
280-299): round-robin-select `count * 2` excerpts, join with blank lines,
truncate to `MAX_CONTEXT` characters. -/
def mcqCombined (docs : List Doc) (count : Nat) : String :=
  let selected := selectExcerpts (count * 2) (mcqGroups docs)
  let combined := joinWith "\n\n" selected
  if MAX_CONTEXT < strLen combined then takeChars MAX_CONTEXT combined else combined

/-- `generate_mcq` (qa.py lines 239-370).  `count = body.num_questions or 5`
(Python falsiness of `0`). -/
def generate_mcq (env : MCQEnv) (body : MCQRequest) :
    Except QuizError MCQListResponse × MCQTrace :=
  let count := if body.num_questions = 0 then 5 else body.num_questions
  let docs := mcqDocs env body
  if docs.isEmpty then
    (Except.error QuizError.noDocuments, MCQTrace.mk [])
  else
    let combined_content := mcqCombined docs count
    let mcq_prompt := build_mcq_generation_prompt [combined_content] count
    let resp := env.llm mcq_prompt
    let resp := repairResponse resp
    match parseMcqsJson count (env.jsonParse resp) with
    | Except.ok mcqs =>
      (Except.ok (MCQListResponse.mk body.session_id
          ("Generate " ++ toString count ++ " MCQs") mcqs),
       MCQTrace.mk [mcq_prompt])
    | Except.error e => (Except.error e, MCQTrace.mk [mcq_prompt])

/-! ## Concrete fixtures used by claim-level tests and witnesses -/

/-- The always-failing suggestion oracle (the worst-case secondary step). -/
def sugFail : SuggestOracle := fun _ _ => Except.error ()

/-- Environment with empty retrieval and a blank backend. -/
def env0 : QueryEnv := QueryEnv.mk (fun _ _ _ => []) (fun _ => "") []

/-- A minimal answer request. -/
def body0 : QueryRequest := QueryRequest.mk "s1" "q1" none

/-- Quiz environment with empty retrieval. -/
def env0m : MCQEnv := MCQEnv.mk (fun _ _ _ => []) (fun _ => "") (fun _ => none)

/-- A minimal quiz request. -/
def body0m : MCQRequest := MCQRequest.mk "s1" 3 none

/-- Quiz environment with one document, a backend answering the literal
text "[]", and a parse oracle reading "[]" as the empty JSON array. -/
def env1 : MCQEnv :=
  MCQEnv.mk (fun _ _ _ => [Doc.mk "alpha beta" (some "a.pdf")]) (fun _ => "[]")
    (fun s => if s = "[]" then some (Json.arr []) else none)

/-- A quiz request with `num_questions = 0`. -/
def body1 : MCQRequest := MCQRequest.mk "s2" 0 none

/-- The balancer input of the spec example: 15 passages from source A and 3
from source B, each in its original relevance order, source order [A, B]. -/
def c2docs : List Doc :=
  [Doc.mk "A1" (some "A"), Doc.mk "A2" (some "A"), Doc.mk "A3" (some "A"),
   Doc.mk "A4" (some "A"), Doc.mk "A5" (some "A"), Doc.mk "A6" (some "A"),
   Doc.mk "A7" (some "A"), Doc.mk "A8" (some "A"), Doc.mk "A9" (some "A"),
   Doc.mk "A10" (some "A"), Doc.mk "A11" (some "A"), Doc.mk "A12" (some "A"),
   Doc.mk "A13" (some "A"), Doc.mk "A14" (some "A"), Doc.mk "A15" (some "A"),
   Doc.mk "B1" (some "B"), Doc.mk "B2" (some "B"), Doc.mk "B3" (some "B")]

/-- A stored two-turn conversation in chronological (creation) order. -/
def c4Store : List StoredMsg :=
  [StoredMsg.mk "user" "u1", StoredMsg.mk "assistant" "a1",
   StoredMsg.mk "user" "u2", StoredMsg.mk "assistant" "a2"]

/-! ## Helper lemmas -/

theorem findChar_append_cons (c : Char) (p rest : List Char) (h : c ∉ p) :
    findChar c (p ++ c :: rest) = some p.length := by
  induction p with
  | nil => simp [findChar]
  | cons a p ih =>
    have ha : a ≠ c := fun e => h (by simp [e])
    have h2 : c ∉ p := fun hm => h (List.mem_cons_of_mem _ hm)
    simp [findChar, ha, ih h2]

theorem sliceJsonArray_extract (pre mid post : String)
    (hpre : '[' ∉ pre.toList) (hpost : ']' ∉ post.toList) :
    sliceJsonArray (pre ++ "[" ++ mid ++ "]" ++ post) = "[" ++ mid ++ "]" := by
  have hdata : (pre ++ "[" ++ mid ++ "]" ++ post).toList
      = pre.toList ++ '[' :: (mid.toList ++ ']' :: post.toList) := by
    simp [String.toList, String.data_append]
  have hrev : (pre.toList ++ '[' :: (mid.toList ++ ']' :: post.toList)).reverse
      = post.toList.reverse ++ ']' :: (mid.toList.reverse ++ '[' :: pre.toList.reverse) := by
    simp
  have hfind1 : findChar '[' (pre.toList ++ '[' :: (mid.toList ++ ']' :: post.toList))
      = some pre.toList.length := findChar_append_cons _ _ _ hpre
  have hpost2 : ']' ∉ post.toList.reverse := by simpa using hpost
  have hfind2 : findChar ']'
      (post.toList.reverse ++ ']' :: (mid.toList.reverse ++ '[' :: pre.toList.reverse))
      = some post.toList.reverse.length := findChar_append_cons _ _ _ hpost2
  simp only [sliceJsonArray, hdata, hrev, hfind1, hfind2]
  have hlen : (pre.toList ++ '[' :: (mid.toList ++ ']' :: post.toList)).length
      = pre.toList.length + mid.toList.length + post.toList.length + 2 := by
    simp; omega
  have hcond : pre.toList.length <
      (pre.toList ++ '[' :: (mid.toList ++ ']' :: post.toList)).length -
        post.toList.reverse.length := by
    simp only [hlen, List.length_reverse]; omega
  simp only [hcond, if_pos]
  have harith : (pre.toList ++ '[' :: (mid.toList ++ ']' :: post.toList)).length
      - post.toList.reverse.length - pre.toList.length = mid.toList.length + 2 := by
    simp; omega
  have hdrop : List.drop pre.toList.length
      (pre.toList ++ '[' :: (mid.toList ++ ']' :: post.toList))
      = '[' :: (mid.toList ++ ']' :: post.toList) := List.drop_left _ _
  have htake : List.take (mid.toList.length + 2) ('[' :: (mid.toList ++ ']' :: post.toList))
      = '[' :: mid.toList ++ [']'] := by
    rw [show mid.toList.length + 2 = (mid.toList.length + 1) + 1 from rfl,
        List.take_succ_cons, List.take_append_eq_append_take]
    simp
  rw [harith, hdrop, htake]
  apply String.ext
  simp [String.toList, String.data_append]

theorem collectSuggestions_eq (lines : List String) :
    collectSuggestions lines =
      (((lines.map pyStrip).filter (fun l => l ≠ "")).map cleanLine).filter
        (fun l => l ≠ "") := by
  induction lines with
  | nil => rfl
  | cons line rest ih =>
    by_cases h1 : pyStrip line = ""
    · simp [collectSuggestions, h1, ih]
    · by_cases h2 : cleanLine (pyStrip line) = ""
      · simp [collectSuggestions, h1, h2, ih]
      · simp [collectSuggestions, h1, h2, ih]

theorem selectPass_length (maxE : Nat) (qs : List (String × List String))
    (acc : List String) (h : acc.length ≤ maxE) :
    (selectPass maxE qs acc).2.length ≤ maxE := by
  induction qs generalizing acc with
  | nil => simpa [selectPass]
  | cons p rest ih =>
    obtain ⟨s, q⟩ := p
    by_cases hc : maxE ≤ acc.length
    · simpa [selectPass, hc]
    · cases q with
      | nil => simpa [selectPass, hc] using ih acc h
      | cons x q2 =>
        have hlen : (acc ++ [x]).length ≤ maxE := by
          simp; omega
        simpa [selectPass, hc] using ih (acc ++ [x]) hlen

theorem selectLoop_length (maxE fuel : Nat) (qs : List (String × List String))
    (acc : List String) (h : acc.length ≤ maxE) :
    (selectLoop maxE fuel qs acc).length ≤ maxE := by
  induction fuel generalizing qs acc with
  | zero => simpa [selectLoop]
  | succ n ih =>
    by_cases hc : maxE ≤ acc.length
    · simpa [selectLoop, hc]
    · by_cases he : qs.all (fun p => p.snd.isEmpty)
      · simpa [selectLoop, hc, he]
      · simpa [selectLoop, hc, he] using
          ih (selectPass maxE qs acc).1 (selectPass maxE qs acc).2
            (selectPass_length maxE qs acc h)

theorem selectExcerpts_length (maxE : Nat) (groups : List (String × List String)) :
    (selectExcerpts maxE groups).length ≤ maxE :=
  selectLoop_length _ _ _ _ (by simp)

theorem traverseItems_length (items : List Json) (ms : List MCQItem)
    (h : traverseItems items = some ms) : ms.length = items.length := by
  induction items generalizing ms with
  | nil => simp [traverseItems] at h; simp [← h]
  | cons j rest ih =>
    simp only [traverseItems] at h
    cases hb : buildMCQItem j with
    | none => rw [hb] at h; exact absurd h (by simp)
    | some m =>
      rw [hb] at h
      cases ht : traverseItems rest with
      | none => rw [ht] at h; exact absurd h (by simp)
      | some ms2 =>
        rw [ht] at h
        simp at h
        subst h
        simp [ih ms2 ht]

theorem parseMcqsJson_ok_length (count : Nat) (p : Option Json) (ms : List MCQItem)
    (h : parseMcqsJson count p = Except.ok ms) : ms.length ≤ count := by
  cases p with
  | none => exact absurd h (by simp [parseMcqsJson])
  | some j =>
    cases j with
    | arr items =>
      cases ht : traverseItems (items.take count) with
      | none => rw [parseMcqsJson, ht] at h; exact absurd h (by simp)
      | some ms2 =>
        rw [parseMcqsJson, ht] at h
        simp at h
        subst h
        have := traverseItems_length _ _ ht
        have h2 : (items.take count).length ≤ count := List.length_take_le _ _
        omega
    | null => exact absurd h (by simp [parseMcqsJson])
    | bool b => exact absurd h (by simp [parseMcqsJson])
    | num n => exact absurd h (by simp [parseMcqsJson])
    | str s => exact absurd h (by simp [parseMcqsJson])
    | obj kvs => exact absurd h (by simp [parseMcqsJson])

/-! ## Claim theorems -/

/-- Claim C1: for every answer request, `query_docs` never raises past this
layer: under any modeled behavior of the collaborators (total per the spec
interface contracts) and any behavior of the fallible secondary suggestion
step, it returns a `QueryResponse`; the answer and source list do not depend
on the suggestion oracle, and a failing suggestion step degrades to an empty
suggestion list. -/
theorem c1_query_docs_always_returns (env : QueryEnv) (body : QueryRequest)
    (sug sug2 : SuggestOracle) :
    (query_docs env sug body).isOk = true ∧
    (∀ r t r2 t2, query_docs env sug body = Except.ok (r, t) →
        query_docs env sug2 body = Except.ok (r2, t2) →
        r.answer = r2.answer ∧ r.source_docs = r2.source_docs) ∧
    (∀ r t, query_docs env sugFail body = Except.ok (r, t) → r.suggestions = []) := by
  refine ⟨?_, ?_, ?_⟩
  · by_cases hE : (env.retrieve (buildFilter body.files) TOP_K body.query).isEmpty
    · simp [query_docs, hE, Except.isOk, Except.toBool]
    · simp [query_docs, hE, Except.isOk, Except.toBool]
  · intro r t r2 t2 h1 h2
    by_cases hE : (env.retrieve (buildFilter body.files) TOP_K body.query).isEmpty
    · simp [query_docs, hE] at h1 h2
      obtain ⟨h1a, -⟩ := h1
      obtain ⟨h2a, -⟩ := h2
      subst h1a; subst h2a
      exact ⟨rfl, rfl⟩
    · simp [query_docs, hE] at h1 h2
      obtain ⟨h1a, -⟩ := h1
      obtain ⟨h2a, -⟩ := h2
      subst h1a; subst h2a
      exact ⟨rfl, rfl⟩
  · intro r t h1
    by_cases hE : (env.retrieve (buildFilter body.files) TOP_K body.query).isEmpty
    · simp [query_docs, hE] at h1
      obtain ⟨h1a, -⟩ := h1
      subst h1a
      rfl
    · simp [query_docs, hE] at h1
      obtain ⟨h1a, -⟩ := h1
      subst h1a
      rfl

/-- Witness for C1 at a concrete environment, with the two equation
hypotheses of the third conjunct discharged by computation. -/
theorem c1_query_docs_always_returns_witness :
    (query_docs env0 sugFail body0).isOk = true ∧
    (QueryResponse.mk "s1" "q1" fallbackAnswer [] []).suggestions = [] := by
  have h := c1_query_docs_always_returns env0 body0 sugFail sugFail
  exact ⟨h.1, h.2.2 (QueryResponse.mk "s1" "q1" fallbackAnswer [] [])
    (QueryTrace.mk 0 [StoredMsg.mk "user" "q1"] [[]]) rfl⟩

/-- Claim C2: on 15 passages from source A and 3 from source B (source order
[A, B], per-source cap 10, global cap 30) the Context Balancer outputs
exactly A1,B1,A2,B2,A3,B3,A4,A5,A6,A7,A8,A9,A10 (length 13). -/
theorem c2_context_balancer_example :
    maxChunksPerFile = 10 ∧ maxTotalChunks = 30 ∧
    balanceContexts (groupDocs "Unknown File" Doc.page_content c2docs) =
      ["A1", "B1", "A2", "B2", "A3", "B3", "A4", "A5", "A6", "A7", "A8", "A9", "A10"] := by
  refine ⟨rfl, rfl, ?_⟩
  decide

/-- Claim C3: no filenames yield no predicate (retrieval covers the whole
index); one filename yields a conjunctive `must` exact-match predicate on the
source attribute; two or more filenames yield a `should` disjunction
matching any of the listed files. -/
theorem c3_filter_builder :
    buildFilter none = none ∧ buildFilter (some []) = none ∧
    (∀ s, scopeAllows (buildFilter none) s = true) ∧
    (∀ f, buildFilter (some [f]) =
      some (QFilter.mk [FieldCondition.mk "metadata.source" f] [])) ∧
    (∀ f s, scopeAllows (buildFilter (some [f])) s = decide (s = f)) ∧
    (∀ fs, 2 ≤ fs.length → buildFilter (some fs) =
      some (QFilter.mk [] (fs.map (fun f => FieldCondition.mk "metadata.source" f)))) ∧
    (∀ fs s, 2 ≤ fs.length →
      scopeAllows (buildFilter (some fs)) s = fs.any (fun f => decide (f = s))) := by
  refine ⟨rfl, rfl, fun s => rfl, fun f => rfl, ?_, ?_, ?_⟩
  · intro f s
    simp [scopeAllows, buildFilter, eq_comm]
  · intro fs h
    match fs, h with
    | a :: b :: t, _ => simp [buildFilter]
  · intro fs s h
    match fs, h with
    | a :: b :: t, _ =>
      have haux : ∀ (u : List String),
          (List.map (fun f => FieldCondition.mk "metadata.source" f) u).any
            (fun c => decide (c.value = s)) = u.any (fun f => decide (f = s)) := by
        intro u; induction u with
        | nil => rfl
        | cons x u ih => simp [ih]
      simp [buildFilter, scopeAllows, haux]

/-- Witness for C3 at concrete file lists. -/
theorem c3_filter_builder_witness :
    buildFilter (some ["a.pdf"]) =
      some (QFilter.mk [FieldCondition.mk "metadata.source" "a.pdf"] []) ∧
    scopeAllows (buildFilter (some ["a.pdf"])) "b.pdf" = decide (("b.pdf" : String) = "a.pdf") ∧
    (2 ≤ (["a.pdf", "b.pdf"] : List String).length ∧
      buildFilter (some ["a.pdf", "b.pdf"]) =
        some (QFilter.mk [] [FieldCondition.mk "metadata.source" "a.pdf",
          FieldCondition.mk "metadata.source" "b.pdf"]) ∧
      scopeAllows (buildFilter (some ["a.pdf", "b.pdf"])) "b.pdf" =
        (["a.pdf", "b.pdf"] : List String).any (fun f => decide (f = "b.pdf"))) := by
  have h := c3_filter_builder
  exact ⟨h.2.2.2.1 "a.pdf", h.2.2.2.2.1 "a.pdf" "b.pdf",
    by decide, h.2.2.2.2.2.1 ["a.pdf", "b.pdf"] (by decide),
    h.2.2.2.2.2.2 ["a.pdf", "b.pdf"] "b.pdf" (by decide)⟩

/-- Claim C4 (code bug): on the chronological 4-message history u1,a1,u2,a2,
the history window read from the store is newest-first
(`order(created_at, desc=True)`), but the pairing loop of
`build_suggestion_prompt` assumes oldest-first input; the resulting turn
list is the single mispaired turn (u2, a1) instead of the chronological
reconstruction (u1, a1), (u2, a2), which the same loop produces when fed the
chronological order. -/
theorem c4_follow_up_history_pairing :
    conversationPairs (normalizeHistory (get_session_messages c4Store 6)) = [("u2", "a1")] ∧
    conversationPairs (normalizeHistory c4Store) = [("u1", "a1"), ("u2", "a2")] ∧
    get_session_messages c4Store 6 =
      [StoredMsg.mk "assistant" "a2", StoredMsg.mk "user" "u2",
       StoredMsg.mk "assistant" "a1", StoredMsg.mk "user" "u1"] := by
  exact ⟨rfl, rfl, rfl⟩

/-- Claim C5: a quiz request whose scoped retrieval is empty fails with the
explicit 404 not-found error, and the generation backend is never invoked
(the trace of backend prompts is empty). -/
theorem c5_mcq_empty_retrieval_404 (env : MCQEnv) (body : MCQRequest)
    (h : mcqDocs env body = []) :
    generate_mcq env body = (Except.error QuizError.noDocuments, MCQTrace.mk []) ∧
    QuizError.status QuizError.noDocuments = 404 := by
  unfold generate_mcq
  rw [h]
  exact ⟨rfl, rfl⟩

/-- Witness for C5 at a concrete empty-retrieval environment. -/
theorem c5_mcq_empty_retrieval_404_witness :
    mcqDocs env0m body0m = [] ∧
    generate_mcq env0m body0m = (Except.error QuizError.noDocuments, MCQTrace.mk []) := by
  have h := c5_mcq_empty_retrieval_404 env0m body0m rfl
  exact ⟨rfl, h.1⟩

/-- Claim C6 (amended): after the repair step, the parse-and-validate stage
succeeds exactly when the sliced text parses as JSON, the parsed value is an
array, and every one of the first `count` items converts to an `MCQItem`
(in particular each must be a JSON object); on success it returns those at
most `count` items, and an item with no fields at all yields the defaults
(empty question, empty choice mapping, empty correct answer) with no
failure. -/
theorem c6_mcq_parse_validation (count : Nat) (p : Option Json) :
    ((parseMcqsJson count p).isOk = true ↔
      ∃ items, p = some (Json.arr items) ∧
        (traverseItems (items.take count)).isSome = true) ∧
    (∀ items ms, p = some (Json.arr items) →
        traverseItems (items.take count) = some ms →
        parseMcqsJson count p = Except.ok ms ∧ ms.length ≤ count) ∧
    buildMCQItem (Json.obj []) = some (MCQItem.mk "" [] "") := by
  refine ⟨?_, ?_, rfl⟩
  · cases p with
    | none => simp [parseMcqsJson, Except.isOk, Except.toBool]
    | some j =>
      cases j with
      | arr items =>
        cases ht : traverseItems (items.take count) with
        | none => simp [parseMcqsJson, ht, Except.isOk, Except.toBool]
        | some ms => simp [parseMcqsJson, ht, Except.isOk, Except.toBool]
      | null => simp [parseMcqsJson, Except.isOk, Except.toBool]
      | bool b => simp [parseMcqsJson, Except.isOk, Except.toBool]
      | num n => simp [parseMcqsJson, Except.isOk, Except.toBool]
      | str s => simp [parseMcqsJson, Except.isOk, Except.toBool]
      | obj kvs => simp [parseMcqsJson, Except.isOk, Except.toBool]
  · intro items ms hp ht
    subst hp
    refine ⟨by simp [parseMcqsJson, ht], ?_⟩
    have := traverseItems_length _ _ ht
    have h2 : (items.take count).length ≤ count := List.length_take_le _ _
    omega

/-- Witness for C6 at a one-item array whose object has no fields. -/
theorem c6_mcq_parse_validation_witness :
    (some (Json.arr [Json.obj []]) = some (Json.arr [Json.obj []])) ∧
    traverseItems ([Json.obj []].take 2) = some [MCQItem.mk "" [] ""] ∧
    parseMcqsJson 2 (some (Json.arr [Json.obj []])) = Except.ok [MCQItem.mk "" [] ""] ∧
    [MCQItem.mk "" [] ""].length ≤ 2 := by
  have h := (c6_mcq_parse_validation 2 (some (Json.arr [Json.obj []]))).2.1
    [Json.obj []] [MCQItem.mk "" [] ""] rfl rfl
  exact ⟨rfl, rfl, h.1, h.2⟩

/-- Counterexample to C6 as stated: the sliced text parses to a JSON array,
yet the stage surfaces an error, because the single item is not an object
(`item.get` raises, caught by the generic 500 handler) — so "error iff parse
fails or non-array" is false. -/
theorem c6_mcq_parse_validation_counterexample :
    (∃ items, some (Json.arr [Json.num 42]) = some (Json.arr items)) ∧
    parseMcqsJson 5 (some (Json.arr [Json.num 42])) =
      Except.error QuizError.invalidResponse ∧
    QuizError.status QuizError.invalidResponse = 500 := by
  exact ⟨⟨[Json.num 42], rfl⟩, rfl, rfl⟩

/-- Claim C7: when the fence-cleaning steps leave prose around a bracketed
array (leading prose without an opening bracket, trailing prose without a
closing bracket), the slice from the first opening bracket to the last
closing bracket yields exactly the bracketed array text; in particular the
spec example with leading prose, a fenced JSON array and trailing prose. -/
theorem c7_quiz_repair_extracts_array (raw pre mid post : String)
    (hstrip : stripCodeFence raw = pre ++ "[" ++ mid ++ "]" ++ post)
    (hpre : '[' ∉ pre.toList) (hpost : ']' ∉ post.toList) :
    repairResponse raw = "[" ++ mid ++ "]" ∧
    repairResponse "Here you go:\n```json\n[\x7b...\x7d]\n```\nThanks" = "[\x7b...\x7d]" := by
  refine ⟨?_, by decide⟩
  rw [repairResponse, hstrip]
  exact sliceJsonArray_extract pre mid post hpre hpost

/-- Witness for C7 at the spec example string. -/
theorem c7_quiz_repair_extracts_array_witness :
    stripCodeFence "Here you go:\n```json\n[\x7b...\x7d]\n```\nThanks" =
      "Here you go:\n```json\n" ++ "[" ++ "\x7b...\x7d" ++ "]" ++ "\n```\nThanks" ∧
    '[' ∉ ("Here you go:\n```json\n" : String).toList ∧
    ']' ∉ ("\n```\nThanks" : String).toList ∧
    repairResponse "Here you go:\n```json\n[\x7b...\x7d]\n```\nThanks" =
      "[" ++ "\x7b...\x7d" ++ "]" := by
  have h := c7_quiz_repair_extracts_array
    "Here you go:\n```json\n[\x7b...\x7d]\n```\nThanks"
    "Here you go:\n```json\n" "\x7b...\x7d" "\n```\nThanks"
    (by decide) (by decide) (by decide)
  exact ⟨by decide, by decide, by decide, h.1⟩

/-- Claim C8: an answer request with empty scoped retrieval returns (as a
success) the fixed literal fallback answer, an empty source list, and
best-effort suggestions computed from an empty history; the backend is not
invoked for the answer (zero backend calls in the trace) and a failing
suggestion computation is swallowed to an empty list. -/
theorem c8_empty_retrieval_fallback (env : QueryEnv) (suggest : SuggestOracle)
    (body : QueryRequest)
    (h : env.retrieve (buildFilter body.files) TOP_K body.query = []) :
    query_docs env suggest body =
      Except.ok
        (QueryResponse.mk body.session_id body.query fallbackAnswer []
          (bestEffort (suggest [] body.files)),
         QueryTrace.mk 0 (save_chat_message env.store "user" body.query) [[]]) ∧
    bestEffort (Except.error ()) = [] := by
  unfold query_docs
  rw [h]
  exact ⟨rfl, rfl⟩

/-- Witness for C8 at a concrete empty-retrieval environment, with a failing
suggestion oracle swallowed to an empty list. -/
theorem c8_empty_retrieval_fallback_witness :
    env0.retrieve (buildFilter body0.files) TOP_K body0.query = [] ∧
    query_docs env0 sugFail body0 =
      Except.ok (QueryResponse.mk "s1" "q1" fallbackAnswer [] [],
        QueryTrace.mk 0 [StoredMsg.mk "user" "q1"] [[]]) := by
  have h := c8_empty_retrieval_fallback env0 sugFail body0 rfl
  exact ⟨rfl, h.1⟩

/-- Claim C9: the suggestion list returned from a raw response is exactly
the first at most 3 lines that are non-empty after stripping (lines empty
before or after marker-cleaning are skipped), and its length is always at
most 3. -/
theorem c9_suggestion_line_parsing (resp : String) :
    extractSuggestions resp =
      ((((((splitNl resp).map pyStrip).filter (fun l => l ≠ "")).map cleanLine).filter
        (fun l => l ≠ "")).take 3) ∧
    (extractSuggestions resp).length ≤ 3 := by
  constructor
  · rw [extractSuggestions, collectSuggestions_eq]
  · rw [extractSuggestions]
    exact List.length_take_le _ _

/-- Claim C10: a quiz request with `num_questions = 0` is treated as a
request for the default 5 items: the backend is prompted once with the
5-question prompt, at most `5 * 2 = 10` excerpts are collected, and any
successful result has at most 5 items. -/
theorem c10_zero_count_uses_default (env : MCQEnv) (body : MCQRequest)
    (h0 : body.num_questions = 0) (hne : mcqDocs env body ≠ []) :
    (generate_mcq env body).2.llmPrompts =
      [build_mcq_generation_prompt [mcqCombined (mcqDocs env body) 5] 5] ∧
    (selectExcerpts (5 * 2) (mcqGroups (mcqDocs env body))).length ≤ 10 ∧
    (∀ r, (generate_mcq env body).1 = Except.ok r → r.mcqs.length ≤ 5) := by
  have hE : (mcqDocs env body).isEmpty = false := by
    cases hM : mcqDocs env body with
    | nil => exact absurd hM hne
    | cons a l => rfl
  refine ⟨?_, ?_, ?_⟩
  · simp only [generate_mcq, h0, if_pos rfl, hE, Bool.false_eq_true, if_false, if_true]
    generalize parseMcqsJson 5 _ = res
    cases res <;> rfl
  · exact selectExcerpts_length _ _
  · intro r hr
    simp only [generate_mcq, h0, if_pos rfl, hE, Bool.false_eq_true, if_false, if_true] at hr
    generalize hP : parseMcqsJson 5 _ = res at hr
    cases res with
    | ok ms =>
      simp at hr
      have := parseMcqsJson_ok_length _ _ _ hP
      rw [← hr]
      simpa using this
    | error e => simp at hr

/-- Witness for C10 at a concrete one-document environment whose backend
answers the empty JSON array. -/
theorem c10_zero_count_uses_default_witness :
    body1.num_questions = 0 ∧ mcqDocs env1 body1 ≠ [] ∧
    (generate_mcq env1 body1).2.llmPrompts =
      [build_mcq_generation_prompt [mcqCombined (mcqDocs env1 body1) 5] 5] := by
  have h := c10_zero_count_uses_default env1 body1 rfl (by decide)
  exact ⟨rfl, by decide, h.1⟩

end DocRag
